import Mathlib

/-!
Shallow embedding of the core of the gwcli Google Workspace CLI:
the profile configuration store (src/lib/config.ts), the authenticated
session provider and OAuth callback handling (src/lib/auth.ts), the
calendar date/time parser and event construction
(src/lib/calendar-client.ts), and the profile-add command flow
(src/commands/profiles.ts).

Modelling conventions:
- JavaScript strings are Lean `String`s; character-level regular
  expression matching is carried out on `List Char` with structural
  recursion so every definition evaluates by kernel reduction.
- JavaScript truthiness on optional strings (`undefined` and `""` are
  falsy) and optional numbers (`undefined` and `0` are falsy) is made
  explicit through `jsTruthyStr` / `jsTruthyInt`, and the `a || b`
  idiom through `jsOrStr` / `jsOrInt`.
- Instants are epoch milliseconds (`Int`).  An ISO-8601 string produced
  by `Date.prototype.toISOString` determines and is determined by its
  instant, so functions that pass ISO strings around are modelled as
  passing the instant itself.
- The invoking machine's clock and timezone are an explicit environment
  `JsDateEnv` with a fixed UTC offset (`localTime = utc + tzOffsetMs`),
  and the engine-defined free-form string parsing performed by
  `new Date(string)` is an oracle `dateFromString` in that environment
  (`none` models an Invalid Date / NaN result).
- Synchronous filesystem state (the config directory) is an explicit
  `Store` value threaded through the config-store operations.
-/

deriving instance DecidableEq for Except

namespace Gwcli

/-! ## JavaScript truthiness helpers -/

/-- Truthiness of an optional JavaScript string: `undefined` and the
empty string are falsy. -/
def jsTruthyStr : Option String → Bool
  | none => false
  | some s => !(s = "")

/-- The JavaScript expression `a || b` on optional strings. -/
def jsOrStr (a b : Option String) : Option String :=
  if jsTruthyStr a then a else b

/-- Truthiness of an optional JavaScript number: `undefined` and `0`
are falsy. -/
def jsTruthyInt : Option Int → Bool
  | none => false
  | some i => !(i = 0)

/-- The JavaScript expression `a || b` on optional numbers. -/
def jsOrInt (a b : Option Int) : Option Int :=
  if jsTruthyInt a then a else b

/-! ## Character-list string utilities (ASCII-faithful models of the
JavaScript string operations used by the source) -/

/-- Model of `String.prototype.trim`: strip leading and trailing
whitespace. -/
def trimL (l : List Char) : List Char :=
  ((l.dropWhile Char.isWhitespace).reverse.dropWhile Char.isWhitespace).reverse

/-- Model of `String.prototype.toLowerCase` on ASCII input. -/
def toLowerL (l : List Char) : List Char :=
  l.map Char.toLower

/-- Model of `String.prototype.startsWith`. -/
def startsWithL : List Char → List Char → Bool
  | _, [] => true
  | [], _ :: _ => false
  | c :: cs, k :: ks => c = k && startsWithL cs ks

/-- Model of `parseInt(digits, 10)` on a digit run. -/
def digitsToNat (l : List Char) : Nat :=
  l.foldl (fun acc c => 10 * acc + (c.toNat - 48)) 0

/-! ## The three regular expressions of `parseDateTime`
(src/lib/calendar-client.ts lines 255, 271, 278), compiled by hand to
structural matchers.  Greedy matching with backtracking is equivalent
to maximal-digit-run matching for these patterns: whenever the greedy
take of a 1-2 digit group fails, every shorter take leaves a digit in
front of a sub-pattern that cannot begin with a digit. -/

/-- Test of the anchored pattern for four digits, dash, two digits,
dash, two digits, the letter T, two digits, colon, two digits, as a
string prefix (the ISO-8601 early-exit test on the raw input). -/
def isoShapeTest : List Char → Bool
  | a :: b :: c :: d :: '-' :: e :: f :: '-' :: g :: h :: 'T' :: i :: j :: ':' :: k :: m :: _ =>
    a.isDigit && b.isDigit && c.isDigit && d.isDigit && e.isDigit && f.isDigit &&
    g.isDigit && h.isDigit && i.isDigit && j.isDigit && k.isDigit && m.isDigit
  | _ => false

/-- Matcher for the anchored date-plus-time pattern: a four-two-two
digit date, one or more whitespace characters, a one-or-two digit hour,
a colon, and a two digit minute, at end of string.  Returns
`(year, month, day, hour, minute)`. -/
def matchDateTimePat (l : List Char) : Option (Nat × Nat × Nat × Nat × Nat) :=
  match l with
  | y1 :: y2 :: y3 :: y4 :: '-' :: m1 :: m2 :: '-' :: d1 :: d2 :: rest =>
    if y1.isDigit && y2.isDigit && y3.isDigit && y4.isDigit &&
       m1.isDigit && m2.isDigit && d1.isDigit && d2.isDigit then
      match rest with
      | c :: rest2 =>
        if c.isWhitespace then
          let rest3 := rest2.dropWhile Char.isWhitespace
          let hrun := rest3.takeWhile Char.isDigit
          let rest4 := rest3.dropWhile Char.isDigit
          if hrun.length = 1 || hrun.length = 2 then
            match rest4 with
            | ':' :: a :: b :: [] =>
              if a.isDigit && b.isDigit then
                some (digitsToNat [y1, y2, y3, y4], digitsToNat [m1, m2],
                      digitsToNat [d1, d2], digitsToNat hrun, digitsToNat [a, b])
              else none
            | _ => none
          else none
        else none
      | [] => none
    else none
  | _ => none

/-- Matcher for the anchored time-only pattern: a one-or-two digit
hour, an optional colon-plus-two-digit minute, optional whitespace, and
an optional case-insensitive am or pm suffix, at end of string.
Returns `(hours, minutes, meridian)` where the meridian is
`some true` for pm and `some false` for am; an absent minute group
yields `0` (the source destructures with default character zero). -/
def matchTimeOnlyPat (l : List Char) : Option (Nat × Nat × Option Bool) :=
  let hrun := l.takeWhile Char.isDigit
  let rest := l.dropWhile Char.isDigit
  if hrun.length = 1 || hrun.length = 2 then
    let mr : Nat × List Char :=
      match rest with
      | ':' :: a :: b :: r => if a.isDigit && b.isDigit then (digitsToNat [a, b], r) else (0, rest)
      | _ => (0, rest)
    let rest3 := mr.2.dropWhile Char.isWhitespace
    match rest3 with
    | [] => some (digitsToNat hrun, mr.1, none)
    | [c1, c2] =>
      if c1.toLower = 'a' && c2.toLower = 'm' then some (digitsToNat hrun, mr.1, some false)
      else if c1.toLower = 'p' && c2.toLower = 'm' then some (digitsToNat hrun, mr.1, some true)
      else none
    | _ => none
  else none

/-! ## Proleptic Gregorian calendar arithmetic (the arithmetic performed
by the ECMAScript Date type when it interprets an ISO date-time without
an offset in local time) -/

def isLeapYear (y : Nat) : Bool :=
  (y % 4 = 0 && !(y % 100 = 0)) || y % 400 = 0

def cumDaysBeforeMonth (m : Nat) : Nat :=
  [0, 31, 59, 90, 120, 151, 181, 212, 243, 273, 304, 334].getD (m - 1) 0

def daysInMonth (y m : Nat) : Nat :=
  if m = 2 then (if isLeapYear y then 29 else 28)
  else [31, 28, 31, 30, 31, 30, 31, 31, 30, 31, 30, 31].getD (m - 1) 0

/-- Days from 1970-01-01 to the given proleptic Gregorian date. -/
def daysSinceEpoch (y m d : Nat) : Int :=
  let y1 : Int := (y : Int) - 1
  365 * y1 + Int.fdiv y1 4 - Int.fdiv y1 100 + Int.fdiv y1 400
    + (cumDaysBeforeMonth m : Int)
    + (if 2 < m && isLeapYear y then 1 else 0)
    + ((d : Int) - 1) - 719162

/-- Range validity of the components of a constructed
`YYYY-MM-DDTHH:MM:00` string under the ECMAScript ISO date-time
parser; out-of-range components give an Invalid Date, whose
`toISOString` throws. -/
def isoFieldsValid (y mo d hh mm : Nat) : Bool :=
  1 ≤ mo && mo ≤ 12 && 1 ≤ d && d ≤ daysInMonth y mo &&
  (hh ≤ 23 || (hh = 24 && mm = 0)) && mm ≤ 59

/-! ## The date/time parser (CalendarClient.parseDateTime) -/

/-- Clock, timezone, and engine date-string parsing environment of one
CLI invocation. -/
structure JsDateEnv where
  nowMs : Int
  tzOffsetMs : Int
  dateFromString : String → Option Int

/-- The keyword-stripping step: a leading case-insensitive `today`
keeps the base date and drops five characters, a leading
case-insensitive `tomorrow` advances the base date one day and drops
eight characters; the remainder is re-trimmed.  The first component
records whether the base date was advanced. -/
def stripKeyword (t : List Char) : Bool × List Char :=
  if startsWithL (toLowerL t) ("today".data) then (false, trimL (t.drop 5))
  else if startsWithL (toLowerL t) ("tomorrow".data) then (true, trimL (t.drop 8))
  else (false, t)

/-- The hour adjustment applied when a meridian suffix was matched
(two sequential conditionals in the source): pm with hour below twelve
adds twelve, am with hour equal to twelve yields zero. -/
def jsAdjustHours (h : Nat) (mer : Option Bool) : Nat :=
  match mer with
  | none => h
  | some isPM =>
    let h1 := if isPM && h < 12 then h + 12 else h
    if !isPM && h1 = 12 then 0 else h1

/-- Start of the local calendar day containing local-epoch instant
`t` (the effect of `setHours(h, m, 0, 0)` before the hour and minute
are added back). -/
def localDayStart (t : Int) : Int :=
  t - t.emod 86400000

/-- Model of `CalendarClient.parseDateTime`: flexible date/time input
to epoch-millisecond instant, or a thrown error message.  Follows the
source branch for branch: raw-input ISO shape test, trim, keyword
strip, date-plus-time pattern, time-only pattern, free-form fallback
with the `Unable to parse date/time` error naming the input. -/
def parseDateTime (env : JsDateEnv) (input : String) : Except String Int :=
  if isoShapeTest input.data then
    match env.dateFromString input with
    | some t => Except.ok t
    | none => Except.error "Invalid time value"
  else
    let ks := stripKeyword (trimL input.data)
    let baseLocal := env.nowMs + env.tzOffsetMs + (if ks.1 then 86400000 else 0)
    match matchDateTimePat ks.2 with
    | some (y, mo, d, hh, mm) =>
      if isoFieldsValid y mo d hh mm then
        Except.ok ((daysSinceEpoch y mo d) * 86400000 + (hh : Int) * 3600000
          + (mm : Int) * 60000 - env.tzOffsetMs)
      else Except.error "Invalid time value"
    | none =>
      match matchTimeOnlyPat ks.2 with
      | some (h, m, mer) =>
        Except.ok (localDayStart baseLocal + (jsAdjustHours h mer : Int) * 3600000
          + (m : Int) * 60000 - env.tzOffsetMs)
      | none =>
        match env.dateFromString input with
        | some t => Except.ok t
        | none => Except.error ("Unable to parse date/time: " ++ input)

/-- A concrete environment: the local clock reads the UTC instant
2025-06-01T00:00:00Z, the machine timezone is UTC, and free-form
engine parsing accepts nothing. -/
def env0 : JsDateEnv :=
  { nowMs := 1748736000000, tzOffsetMs := 0, dateFromString := fun _ => none }

/-! ## Calendar event construction (CalendarClient.createEvent) -/

/-- The options record accepted by `createEvent`; `endOpt` models the
reserved-word field `end`. -/
structure EventInput where
  summary : String
  start : String
  endOpt : Option String
  description : Option String
  location : Option String
  attendees : Option (List String)
deriving DecidableEq

/-- The start/end/metadata payload submitted to the Calendar API
(start and end as the instants denoted by the ISO strings the source
places in the request body). -/
structure EventBody where
  summary : String
  description : Option String
  location : Option String
  startMs : Int
  endMs : Int
  attendees : Option (List String)
deriving DecidableEq

/-- Model of `CalendarClient.createEvent` up to the API call: parse the
start, compute the end (the truthy `options.end` is parsed, otherwise
the end is the start instant plus one hour), and build the request
body; an attendees field is attached only when the option is a
non-empty array. -/
def createEventBody (env : JsDateEnv) (o : EventInput) : Except String EventBody :=
  match parseDateTime env o.start with
  | Except.error e => Except.error e
  | Except.ok s =>
    match (if jsTruthyStr o.endOpt then parseDateTime env (o.endOpt.getD "")
           else Except.ok (s + 3600000)) with
    | Except.error e => Except.error e
    | Except.ok en =>
      Except.ok
        { summary := o.summary
          description := o.description
          location := o.location
          startMs := s
          endMs := en
          attendees :=
            match o.attendees with
            | some l => if 0 < l.length then some l else none
            | none => none }

/-! ## The configuration store (src/lib/config.ts)

The config directory is modelled as a `Store`: the optional global
config document and an association list of profile namespaces (one
directory per profile, holding an optional config document and an
optional credentials document). -/

/-- The stored token material.  The TypeScript interface declares every
field required, but the documents are unvalidated JSON and the refresh
event payload has every field optional, so each field is modelled as
optional. -/
structure TokenData where
  access_token : Option String
  refresh_token : Option String
  scope : Option String
  token_type : Option String
  expiry_date : Option Int
deriving DecidableEq

structure ProfileCredentials where
  clientId : String
  clientSecret : String
  tokens : TokenData
deriving DecidableEq

structure ProfileConfig where
  email : Option String
  createdAt : String
deriving DecidableEq

structure ProfileEntry where
  config : Option ProfileConfig
  credentials : Option ProfileCredentials
deriving DecidableEq

structure GwcliConfig where
  defaultProfile : Option String
  version : String
deriving DecidableEq

structure Store where
  globalConfig : Option GwcliConfig
  profiles : List (String × ProfileEntry)
deriving DecidableEq

def lookupEntry : List (String × ProfileEntry) → String → Option ProfileEntry
  | [], _ => none
  | (k, e) :: rest, n => if k = n then some e else lookupEntry rest n

def setEntry : List (String × ProfileEntry) → String → ProfileEntry → List (String × ProfileEntry)
  | [], n, e => [(n, e)]
  | (k, e0) :: rest, n, e => if k = n then (n, e) :: rest else (k, e0) :: setEntry rest n e

def removeEntry : List (String × ProfileEntry) → String → List (String × ProfileEntry)
  | [], _ => []
  | (k, e) :: rest, n => if k = n then removeEntry rest n else (k, e) :: removeEntry rest n

/-- Model of `getConfig`: return the global config document, lazily
creating the version-1.0 default on disk when the file is absent. -/
def getConfig (s : Store) : GwcliConfig × Store :=
  match s.globalConfig with
  | some c => (c, s)
  | none =>
    ({ defaultProfile := none, version := "1.0" },
     { s with globalConfig := some { defaultProfile := none, version := "1.0" } })

/-- Model of `saveConfig`. -/
def saveConfig (s : Store) (c : GwcliConfig) : Store :=
  { s with globalConfig := some c }

/-- Model of `profileExists`: the profile directory exists. -/
def profileExists (s : Store) (n : String) : Bool :=
  (lookupEntry s.profiles n).isSome

/-- Model of `listProfiles`: the profile directory names. -/
def listProfiles (s : Store) : List String :=
  s.profiles.map Prod.fst

/-- Model of `getProfileCredentials`. -/
def getProfileCredentials (s : Store) (n : String) : Option ProfileCredentials :=
  match lookupEntry s.profiles n with
  | none => none
  | some e => e.credentials

/-- Model of `saveProfileCredentials`: create the profile directory if
missing and overwrite the credentials document. -/
def saveProfileCredentials (s : Store) (n : String) (c : ProfileCredentials) : Store :=
  let entry :=
    match lookupEntry s.profiles n with
    | some e => { e with credentials := some c }
    | none => { config := none, credentials := some c }
  { s with profiles := setEntry s.profiles n entry }

/-- Model of `saveProfileConfig`. -/
def saveProfileConfig (s : Store) (n : String) (c : ProfileConfig) : Store :=
  let entry :=
    match lookupEntry s.profiles n with
    | some e => { e with config := some c }
    | none => { config := some c, credentials := none }
  { s with profiles := setEntry s.profiles n entry }

/-- Model of `deleteProfile`: remove the profile directory if it
exists, then clear the default pointer when it named the removed
profile; return whether a directory was removed. -/
def deleteProfile (s : Store) (n : String) : Bool × Store :=
  if profileExists s n then
    let s1 : Store := { s with profiles := removeEntry s.profiles n }
    let cs := getConfig s1
    if cs.1.defaultProfile = some n then
      (true, saveConfig cs.2 { cs.1 with defaultProfile := none })
    else (true, cs.2)
  else (false, s)

/-- Model of `setDefaultProfile`. -/
def setDefaultProfile (s : Store) (n : String) : Store :=
  let cs := getConfig s
  saveConfig cs.2 { cs.1 with defaultProfile := some n }

/-- Model of `getDefaultProfile` (its returned value; the lazy config
creation side effect is `(getConfig s).2`). -/
def getDefaultProfile (s : Store) : Option String :=
  (getConfig s).1.defaultProfile

def noProfileMsg : String :=
  "No profile specified. Use --profile, set GWCLI_PROFILE, or run: gwcli profiles set-default <name>"

def unknownProfileMsg (p : String) : String :=
  "Profile \"" ++ p ++ "\" does not exist. Run: gwcli profiles add " ++ p ++ " --client <path>"

/-- Model of `getActiveProfile`: resolve the active profile name from
the explicit flag, the GWCLI_PROFILE environment variable, and the
stored default (a JavaScript or-chain, so empty strings fall
through), then fail if nothing truthy resolved or the resolved name
does not exist on disk. -/
def getActiveProfile (explicitProfile envProfile : Option String) (s : Store) :
    Except String String :=
  let profile := jsOrStr explicitProfile (jsOrStr envProfile (getDefaultProfile s))
  if !(jsTruthyStr profile) then Except.error noProfileMsg
  else
    let p := profile.getD ""
    if !(profileExists s p) then Except.error (unknownProfileMsg p)
    else Except.ok p

/-! ## The authenticated session provider (src/lib/auth.ts) -/

/-- The token-update observer registered by `getAuthenticatedClient`
on the tokens event: merge the refresh-response fields over the stored
token set.  The access token is taken from the response outright (the
source merely non-null-asserts it); every other field falls back to
the stored value through the JavaScript or-idiom, so a response that
omits or empties a field keeps the stored one. -/
def mergeRefreshedTokens (stored : TokenData) (resp : TokenData) : TokenData :=
  { access_token := resp.access_token
    refresh_token := jsOrStr resp.refresh_token stored.refresh_token
    scope := jsOrStr resp.scope stored.scope
    token_type := jsOrStr resp.token_type stored.token_type
    expiry_date := jsOrInt resp.expiry_date stored.expiry_date }

/-- The full observer body: build the updated credentials record from
the captured stored credentials and write it back through the profile
store. -/
def onTokensObserver (s : Store) (profileName : String)
    (credentials : ProfileCredentials) (resp : TokenData) : Store :=
  saveProfileCredentials s profileName
    { credentials with tokens := mergeRefreshedTokens credentials.tokens resp }

/-- What `getAuthenticatedClient` decided to do before returning the
handle: whether the eager refresh ran. -/
structure SessionOutcome where
  refreshed : Bool
deriving DecidableEq

def missingCredentialsMsg (p : String) : String :=
  "No credentials found for profile \"" ++ p ++ "\". Run: gwcli auth login --profile " ++ p

def tokenRefreshMsg (p e : String) : String :=
  "Failed to refresh access token for profile \"" ++ p ++
  "\". You may need to re-authenticate: gwcli auth login --profile " ++ p ++ "\nError: " ++ e

/-- Model of the control flow of `getAuthenticatedClient`: fail when
the store has no credentials; eagerly refresh exactly when the stored
expiry is truthy and in the past, failing with the re-authentication
message when the single refresh attempt fails (`refreshErr` is the
outcome of the attempted refresh call: `none` for success, `some e`
for a failure whose message is `e`); otherwise return the handle
as-is. -/
def getAuthenticatedClient (credsOpt : Option ProfileCredentials) (profileName : String)
    (now : Int) (refreshErr : Option String) : Except String SessionOutcome :=
  match credsOpt with
  | none => Except.error (missingCredentialsMsg profileName)
  | some credentials =>
    if jsTruthyInt credentials.tokens.expiry_date &&
       decide (credentials.tokens.expiry_date.getD 0 < now) then
      match refreshErr with
      | none => Except.ok { refreshed := true }
      | some e => Except.error (tokenRefreshMsg profileName e)
    else Except.ok { refreshed := false }

/-! ## The OAuth callback listener (createCallbackServer) -/

/-- How one request settled the pending authorization promise. -/
inductive CallbackOutcome where
  | resolved (code : String)
  | rejected (msg : String)
  | pending
deriving DecidableEq

/-- Model of the request handler of `createCallbackServer` on one
request whose query holds the given `error` and `code` parameters:
the returned triple is the HTTP status written, whether the listener
was closed, and how the promise settled.  A truthy error closes the
listener and rejects with the provider error string; otherwise a
truthy code closes the listener and resolves; otherwise the handler
answers 404 and keeps listening. -/
def handleCallbackRequest (errQ codeQ : Option String) : Nat × Bool × CallbackOutcome :=
  if jsTruthyStr errQ then
    (200, true, CallbackOutcome.rejected ("OAuth error: " ++ errQ.getD ""))
  else if jsTruthyStr codeQ then
    (200, true, CallbackOutcome.resolved (codeQ.getD ""))
  else (404, false, CallbackOutcome.pending)

/-! ## The profile-add command flow (src/commands/profiles.ts) -/

/-- The externally visible interactions the add flow performs after
its prechecks, in order: read the OAuth client file, bind the
ephemeral callback port, open the browser, exchange the authorization
code. -/
inductive AddEffect where
  | readClientFile
  | bindPort
  | openBrowser
  | exchangeCode
deriving DecidableEq

structure OAuthClientFile where
  clientId : String
  clientSecret : String
deriving DecidableEq

def emptyNameMsg : String := "Profile name cannot be empty"

def duplicateProfileMsg (n : String) : String :=
  "Profile \"" ++ n ++ "\" already exists. Use a different name or remove the existing profile first."

def invalidClientFileMsg : String :=
  "Invalid OAuth client file. Expected \"installed\" or \"web\" credentials."

/-- Model of the `profiles add` action: validate the name, reject a
duplicate profile, then read the client file (`clientFile` is its
parse result, `none` for a missing or invalid file), run the OAuth
flow (`tokens` is the outcome of the code exchange, which already
persists the credentials), save the profile config stamped `nowIso`,
and make the profile the default when it is the first one.  Returns
the command outcome, the resulting store, and the ordered external
interactions performed. -/
def profilesAdd (s : Store) (name : String) (clientFile : Option OAuthClientFile)
    (tokens : Option TokenData) (nowIso : String) :
    Except String Unit × Store × List AddEffect :=
  if name.data = [] || (trimL name.data).length = 0 then
    (Except.error emptyNameMsg, s, [])
  else if profileExists s name then
    (Except.error (duplicateProfileMsg name), s, [])
  else
    match clientFile with
    | none => (Except.error invalidClientFileMsg, s, [AddEffect.readClientFile])
    | some cf =>
      match tokens with
      | none =>
        (Except.error "Token exchange failed", s,
         [AddEffect.readClientFile, AddEffect.bindPort, AddEffect.openBrowser,
          AddEffect.exchangeCode])
      | some td =>
        let s1 := saveProfileCredentials s name
          { clientId := cf.clientId, clientSecret := cf.clientSecret, tokens := td }
        let s2 := saveProfileConfig s1 name { email := none, createdAt := nowIso }
        let s3 := if (listProfiles s2).length = 1 then setDefaultProfile s2 name else s2
        (Except.ok (), s3,
         [AddEffect.readClientFile, AddEffect.bindPort, AddEffect.openBrowser,
          AddEffect.exchangeCode])

/-! ## Specification-side rule and concrete fixtures -/

/-- The 12-hour conversion rule exactly as the specification states
it: pm with hour below twelve adds twelve, am with hour equal to
twelve yields zero, and no suffix leaves the hour as provided. -/
def specAdjustHours (h : Nat) (mer : Option Bool) : Nat :=
  match mer with
  | none => h
  | some true => if h < 12 then h + 12 else h
  | some false => if h = 12 then 0 else h

def creds1 : ProfileCredentials :=
  { clientId := "id", clientSecret := "secret"
    tokens := { access_token := some "at", refresh_token := some "rt", scope := some "sc",
                token_type := some "Bearer", expiry_date := some 1000 } }

def resp1 : TokenData :=
  { access_token := some "at2", refresh_token := none, scope := none,
    token_type := none, expiry_date := some 2000 }

def store1 : Store :=
  { globalConfig := some { defaultProfile := some "work", version := "1.0" }
    profiles := [("work", { config := none, credentials := some creds1 })] }

def storeB : Store :=
  { globalConfig := some { defaultProfile := none, version := "1.0" }
    profiles := [("b", { config := none, credentials := none })] }

def credsZeroExpiry : ProfileCredentials :=
  { clientId := "id", clientSecret := "secret"
    tokens := { access_token := some "at", refresh_token := some "rt", scope := some "sc",
                token_type := some "Bearer", expiry_date := some 0 } }

def eventNoEnd : EventInput :=
  { summary := "mtg", start := "14:00", endOpt := none,
    description := none, location := none, attendees := none }

def eventWithEnd : EventInput :=
  { summary := "mtg", start := "14:00", endOpt := some "tomorrow 2pm",
    description := none, location := none, attendees := none }

def eventEmptyEnd : EventInput :=
  { summary := "mtg", start := "14:00", endOpt := some "",
    description := none, location := none, attendees := none }

/-! ## Store lemmas -/

theorem lookupEntry_setEntry (l : List (String × ProfileEntry)) (n : String) (e : ProfileEntry) :
    lookupEntry (setEntry l n e) n = some e := by
  induction l with
  | nil => simp [setEntry, lookupEntry]
  | cons p rest ih =>
    obtain ⟨k, e0⟩ := p
    by_cases h : k = n
    · subst h; simp [setEntry, lookupEntry]
    · simp [setEntry, lookupEntry, h, ih]

theorem setEntry_setEntry (l : List (String × ProfileEntry)) (n : String) (e e' : ProfileEntry) :
    setEntry (setEntry l n e) n e' = setEntry l n e' := by
  induction l with
  | nil => simp [setEntry]
  | cons p rest ih =>
    obtain ⟨k, e0⟩ := p
    by_cases h : k = n
    · subst h; simp [setEntry]
    · simp [setEntry, h, ih]

theorem lookupEntry_removeEntry (l : List (String × ProfileEntry)) (n : String) :
    lookupEntry (removeEntry l n) n = none := by
  induction l with
  | nil => simp [removeEntry, lookupEntry]
  | cons p rest ih =>
    obtain ⟨k, e0⟩ := p
    by_cases h : k = n
    · simp [removeEntry, h, ih]
    · simp [removeEntry, lookupEntry, h, ih]

theorem getCreds_after_save (s : Store) (n : String) (c : ProfileCredentials) :
    getProfileCredentials (saveProfileCredentials s n c) n = some c := by
  unfold getProfileCredentials saveProfileCredentials
  cases hl : lookupEntry s.profiles n <;> simp [lookupEntry_setEntry]

/-! ## Claim theorems -/

/-- C9: for every profile name N and credentials record C, saving C
under N and loading N returns C; saving is an idempotent overwrite;
and saving creates the profile namespace when it is missing, so the
namespace exists afterwards. -/
theorem credentials_roundtrip (s : Store) (n : String) (c : ProfileCredentials) :
    getProfileCredentials (saveProfileCredentials s n c) n = some c
    ∧ saveProfileCredentials (saveProfileCredentials s n c) n c = saveProfileCredentials s n c
    ∧ profileExists (saveProfileCredentials s n c) n = true := by
  refine ⟨getCreds_after_save s n c, ?_, ?_⟩
  · unfold saveProfileCredentials
    cases hl : lookupEntry s.profiles n <;>
      simp [hl, lookupEntry_setEntry, setEntry_setEntry]
  · unfold profileExists saveProfileCredentials
    cases hl : lookupEntry s.profiles n <;> simp [lookupEntry_setEntry]

/-- C1: for every stored token set whose refresh token is non-empty,
when the registered token-update observer receives a refresh response
that omits the refresh token, the merged token set keeps the stored
refresh token, and exactly that merged record is what the observer
writes back to (and can be re-read from) the profile store. -/
theorem tokenRefresh_preserves_refreshToken
    (s : Store) (p : String) (credentials : ProfileCredentials) (resp : TokenData) (r : String)
    (_h1 : credentials.tokens.refresh_token = some r) (_h2 : r ≠ "")
    (h3 : resp.refresh_token = none) :
    (mergeRefreshedTokens credentials.tokens resp).refresh_token =
      credentials.tokens.refresh_token
    ∧ getProfileCredentials (onTokensObserver s p credentials resp) p =
        some { credentials with tokens := mergeRefreshedTokens credentials.tokens resp } := by
  constructor
  · simp [mergeRefreshedTokens, jsOrStr, jsTruthyStr, h3]
  · exact getCreds_after_save s p _

/-- Witness for C1 at a concrete store, profile, and refresh
response. -/
theorem tokenRefresh_preserves_refreshToken_witness :
    (mergeRefreshedTokens creds1.tokens resp1).refresh_token = creds1.tokens.refresh_token
    ∧ getProfileCredentials (onTokensObserver store1 "work" creds1 resp1) "work" =
        some { creds1 with tokens := mergeRefreshedTokens creds1.tokens resp1 } :=
  tokenRefresh_preserves_refreshToken store1 "work" creds1 resp1 "rt"
    (by decide) (by decide) (by decide)

/-- C8: removing an existing profile returns true, removes the
namespace, and leaves the stored default pointer absent when it named
the removed profile and unchanged otherwise; removing a non-existent
profile returns false and leaves the store untouched. -/
theorem deleteProfile_default_clearing (s : Store) (n : String) :
    (profileExists s n = true →
       (deleteProfile s n).1 = true
       ∧ profileExists (deleteProfile s n).2 n = false
       ∧ getDefaultProfile (deleteProfile s n).2 =
           (if getDefaultProfile s = some n then none else getDefaultProfile s))
    ∧ (profileExists s n = false → deleteProfile s n = (false, s)) := by
  constructor
  · intro hex
    unfold profileExists at hex
    unfold deleteProfile profileExists getDefaultProfile
    cases hg : s.globalConfig with
    | none =>
      simp [hex, getConfig, hg, saveConfig, lookupEntry_removeEntry]
    | some c =>
      by_cases hd : c.defaultProfile = some n <;>
        simp [hex, getConfig, hg, hd, saveConfig, lookupEntry_removeEntry]
  · intro hex
    unfold profileExists at hex
    unfold deleteProfile profileExists
    simp [hex]

/-- Witness for C8: removing the default profile of a concrete store
clears the default, and removing a missing name is a no-op. -/
theorem deleteProfile_default_clearing_witness :
    ((deleteProfile store1 "work").1 = true
     ∧ profileExists (deleteProfile store1 "work").2 "work" = false
     ∧ getDefaultProfile (deleteProfile store1 "work").2 =
         (if getDefaultProfile store1 = some "work" then none else getDefaultProfile store1))
    ∧ deleteProfile store1 "missing" = (false, store1) :=
  ⟨(deleteProfile_default_clearing store1 "work").1 (by decide),
   (deleteProfile_default_clearing store1 "missing").2 (by decide)⟩

/-- C2 counterexample: with the explicit parameter present but empty
and the environment override set to an existing name, the resolver
returns the environment name, not the explicit parameter (and not an
unknown-profile failure for the explicit parameter): JavaScript
truthiness lets an empty explicit value fall through. -/
theorem getActiveProfile_empty_explicit_counterexample :
    getActiveProfile (some "") (some "b") storeB = Except.ok "b"
    ∧ (Except.ok "b" : Except String String) ≠ Except.ok ""
    ∧ (Except.ok "b" : Except String String) ≠ Except.error (unknownProfileMsg "") := by
  decide

/-- C2 (amended): the resolver returns the explicit parameter when it
is present and non-empty, else the environment override when present
and non-empty, else the stored default when present and non-empty —
in each case failing with the unknown-profile error when the resolved
name does not exist on disk — and fails with the no-profile error
when all three are absent or empty. -/
theorem getActiveProfile_precedence (s : Store) (explicitP envP : Option String) :
    (∀ a, explicitP = some a → a ≠ "" →
       getActiveProfile explicitP envP s =
         (if profileExists s a then Except.ok a else Except.error (unknownProfileMsg a)))
    ∧ (∀ b, jsTruthyStr explicitP = false → envP = some b → b ≠ "" →
       getActiveProfile explicitP envP s =
         (if profileExists s b then Except.ok b else Except.error (unknownProfileMsg b)))
    ∧ (∀ c, jsTruthyStr explicitP = false → jsTruthyStr envP = false →
       getDefaultProfile s = some c → c ≠ "" →
       getActiveProfile explicitP envP s =
         (if profileExists s c then Except.ok c else Except.error (unknownProfileMsg c)))
    ∧ (jsTruthyStr explicitP = false → jsTruthyStr envP = false →
       jsTruthyStr (getDefaultProfile s) = false →
       getActiveProfile explicitP envP s = Except.error noProfileMsg) := by
  refine ⟨?_, ?_, ?_, ?_⟩
  · intro a ha hne
    subst ha
    simp only [getActiveProfile, jsOrStr, jsTruthyStr, hne]
    by_cases hex : profileExists s a <;> simp [hex, hne]
  · intro b hfe hb hne
    subst hb
    have htb : jsTruthyStr (some b) = true := by simp [jsTruthyStr, hne]
    simp only [getActiveProfile, jsOrStr, hfe, htb]
    by_cases hex : profileExists s b <;> simp [hex, htb]
  · intro c hfe hfv hd hne
    simp only [getActiveProfile, jsOrStr, hfe, hfv, hd]
    by_cases hex : profileExists s c <;> simp [hex, hne, jsTruthyStr]
  · intro hfe hfv hfd
    simp [getActiveProfile, jsOrStr, hfe, hfv, hfd]

/-- Witness for C2 at concrete inputs: explicit wins over environment
and default; environment wins when explicit is absent; the default is
used when both are absent; the no-profile error fires when nothing is
set. -/
theorem getActiveProfile_precedence_witness :
    getActiveProfile (some "b") (some "x") storeB =
      (if profileExists storeB "b" then Except.ok "b"
       else Except.error (unknownProfileMsg "b"))
    ∧ getActiveProfile none (some "b") storeB =
      (if profileExists storeB "b" then Except.ok "b"
       else Except.error (unknownProfileMsg "b"))
    ∧ getActiveProfile none none store1 =
      (if profileExists store1 "work" then Except.ok "work"
       else Except.error (unknownProfileMsg "work"))
    ∧ getActiveProfile none none storeB = Except.error noProfileMsg :=
  ⟨(getActiveProfile_precedence storeB (some "b") (some "x")).1 "b" rfl (by decide),
   (getActiveProfile_precedence storeB none (some "b")).2.1 "b" (by decide) rfl (by decide),
   (getActiveProfile_precedence store1 none none).2.2.1 "work" (by decide) (by decide)
     (by decide) (by decide),
   (getActiveProfile_precedence storeB none none).2.2.2 (by decide) (by decide) (by decide)⟩

/-- C6 counterexample: with a stored expiry of zero epoch
milliseconds — set, and strictly less than the current time 1 — the
session provider performs no eager refresh (JavaScript truthiness
treats the zero expiry as unset), returning the handle as-is. -/
theorem session_zero_expiry_counterexample :
    (0 : Int) < 1
    ∧ getAuthenticatedClient (some credsZeroExpiry) "work" 1 none =
        Except.ok { refreshed := false } := by
  decide

/-- C6 (amended): for a profile with stored credentials the session
provider eagerly refreshes exactly when the stored expiry is truthy
(set and nonzero) and less than the current time; when that single
refresh attempt fails, it fails with a message that names the profile
to re-authorize; otherwise — including an unset expiry — the handle
is returned as-is with no eager refresh. -/
theorem session_eager_refresh (credentials : ProfileCredentials) (p : String) (now : Int)
    (refreshErr : Option String) :
    (jsTruthyInt credentials.tokens.expiry_date = true →
     credentials.tokens.expiry_date.getD 0 < now →
       (refreshErr = none →
          getAuthenticatedClient (some credentials) p now refreshErr =
            Except.ok { refreshed := true })
       ∧ (∀ e, refreshErr = some e →
          getAuthenticatedClient (some credentials) p now refreshErr =
            Except.error (tokenRefreshMsg p e)
          ∧ ∃ pre post, tokenRefreshMsg p e = pre ++ p ++ post))
    ∧ (¬(jsTruthyInt credentials.tokens.expiry_date = true ∧
          credentials.tokens.expiry_date.getD 0 < now) →
       getAuthenticatedClient (some credentials) p now refreshErr =
         Except.ok { refreshed := false }) := by
  constructor
  · intro ht hlt
    constructor
    · intro hr
      subst hr
      simp [getAuthenticatedClient, ht, hlt]
    · intro e hr
      subst hr
      refine ⟨by simp [getAuthenticatedClient, ht, hlt], ⟨"Failed to refresh access token for profile \"", ?_, ?_⟩⟩
      · exact "\". You may need to re-authenticate: gwcli auth login --profile " ++ p ++ "\nError: " ++ e
      · simp [tokenRefreshMsg, String.append_assoc]
  · intro hn
    rcases Decidable.em (jsTruthyInt credentials.tokens.expiry_date = true) with ht | ht
    · have hlt : ¬(credentials.tokens.expiry_date.getD 0 < now) := fun h => hn ⟨ht, h⟩
      simp [getAuthenticatedClient, ht, hlt]
    · have ht' : jsTruthyInt credentials.tokens.expiry_date = false := by
        revert ht; cases jsTruthyInt credentials.tokens.expiry_date <;> simp
      simp [getAuthenticatedClient, ht']

/-- Witness for C6 at concrete inputs: an expired stored token set is
refreshed before returning; a failed refresh produces the
re-authentication error naming the profile; an unexpired token set and
an unset expiry each yield the handle as-is. -/
theorem session_eager_refresh_witness :
    getAuthenticatedClient (some creds1) "work" 2000 none = Except.ok { refreshed := true }
    ∧ (getAuthenticatedClient (some creds1) "work" 2000 (some "boom") =
         Except.error (tokenRefreshMsg "work" "boom")
       ∧ ∃ pre post, tokenRefreshMsg "work" "boom" = pre ++ "work" ++ post)
    ∧ getAuthenticatedClient (some creds1) "work" 500 none =
        Except.ok { refreshed := false } :=
  ⟨((session_eager_refresh creds1 "work" 2000 none).1 (by decide) (by decide)).1 rfl,
   ((session_eager_refresh creds1 "work" 2000 (some "boom")).1 (by decide) (by decide)).2
     "boom" rfl,
   (session_eager_refresh creds1 "work" 500 none).2 (by decide)⟩

/-- C5 counterexample: a request whose query carries an error
parameter with an empty value is answered 404 and leaves the listener
bound with the flow still pending — the empty provider error is falsy,
so the handler does not take the rejection path the claim requires for
every request containing an error parameter. -/
theorem callback_empty_error_counterexample :
    handleCallbackRequest (some "") none = (404, false, CallbackOutcome.pending) := by
  decide

/-- C5 (amended): for every single request received by the callback
listener, a non-empty error parameter rejects the flow with the
provider-supplied error string and closes the listener; otherwise a
non-empty code parameter resolves the flow with that code and closes
the listener; otherwise the handler answers 404 and keeps listening;
and whenever the request resolved or rejected the flow, the listener
is closed. -/
theorem callback_request_handling (errQ codeQ : Option String) :
    (∀ e, errQ = some e → e ≠ "" →
       handleCallbackRequest errQ codeQ =
         (200, true, CallbackOutcome.rejected ("OAuth error: " ++ e)))
    ∧ (∀ c, jsTruthyStr errQ = false → codeQ = some c → c ≠ "" →
       handleCallbackRequest errQ codeQ = (200, true, CallbackOutcome.resolved c))
    ∧ (jsTruthyStr errQ = false → jsTruthyStr codeQ = false →
       handleCallbackRequest errQ codeQ = (404, false, CallbackOutcome.pending))
    ∧ ((handleCallbackRequest errQ codeQ).2.2 ≠ CallbackOutcome.pending →
       (handleCallbackRequest errQ codeQ).2.1 = true) := by
  refine ⟨?_, ?_, ?_, ?_⟩
  · intro e he hne
    subst he
    simp [handleCallbackRequest, jsTruthyStr, hne]
  · intro c hfe hc hne
    subst hc
    have htc : jsTruthyStr (some c) = true := by simp [jsTruthyStr, hne]
    simp [handleCallbackRequest, hfe, htc]
  · intro hfe hfc
    simp [handleCallbackRequest, hfe, hfc]
  · intro hp
    unfold handleCallbackRequest at hp ⊢
    by_cases he : jsTruthyStr errQ <;> by_cases hc : jsTruthyStr codeQ <;>
      simp_all

/-- Witness for C5 at concrete requests: a denied consent rejects and
closes, a code resolves and closes, and a parameterless probe request
is answered 404 with the listener kept open. -/
theorem callback_request_handling_witness :
    handleCallbackRequest (some "access_denied") none =
      (200, true, CallbackOutcome.rejected ("OAuth error: " ++ "access_denied"))
    ∧ handleCallbackRequest none (some "4/XYZ") =
      (200, true, CallbackOutcome.resolved "4/XYZ")
    ∧ handleCallbackRequest none none = (404, false, CallbackOutcome.pending) :=
  ⟨(callback_request_handling (some "access_denied") none).1 "access_denied" rfl (by decide),
   (callback_request_handling none (some "4/XYZ")).2.1 "4/XYZ" (by decide) rfl (by decide),
   (callback_request_handling none none).2.2.1 (by decide) (by decide)⟩

/-- C7: invoking the add-profile flow for a (non-degenerate) name that
already exists fails with the duplicate-profile error, performs none
of the external interactions (no client-file read, no port bind, no
browser, no code exchange), and leaves the store — in particular the
existing profile's state — unchanged. -/
theorem profilesAdd_duplicate_rejected (s : Store) (name : String)
    (clientFile : Option OAuthClientFile) (tokens : Option TokenData) (nowIso : String)
    (h1 : (trimL name.data).length ≠ 0) (h2 : profileExists s name = true) :
    profilesAdd s name clientFile tokens nowIso =
      (Except.error (duplicateProfileMsg name), s, []) := by
  have hne : ¬(name.data = []) := by
    intro h
    apply h1
    rw [h]
    rfl
  simp [profilesAdd, hne, h1, h2]

/-- Witness for C7: adding the already-present profile of a concrete
store is rejected with no effects and no store change. -/
theorem profilesAdd_duplicate_rejected_witness :
    profilesAdd store1 "work" none none "2025-06-01T00:00:00.000Z" =
      (Except.error (duplicateProfileMsg "work"), store1, []) :=
  profilesAdd_duplicate_rejected store1 "work" none none "2025-06-01T00:00:00.000Z"
    (by decide) (by decide)

theorem adjustHours_spec (h : Nat) (mer : Option Bool) :
    jsAdjustHours h mer = specAdjustHours h mer := by
  cases mer with
  | none => rfl
  | some b => cases b <;> simp [jsAdjustHours, specAdjustHours]

/-- C3 counterexample: the input string 13pm does not raise the
unparseable-date error — it matches the time-only pattern (pm with
hour not below twelve leaves the hour unchanged) and parses to 13:00
local time on the base date. -/
theorem parseDateTime_13pm_counterexample :
    parseDateTime env0 "13pm" = Except.ok 1748782800000 := by
  decide

/-- C3 (amended): the input 13pm parses successfully to 13:00 on the
base date; and every string that matches none of the recognized
shapes — the ISO shape, the date-plus-time shape, and the time-only
shape — and that the generic free-form fallback also fails to parse
raises the unparseable-date error naming the original input string
verbatim. -/
theorem parseDateTime_unparseable_fallback :
    parseDateTime env0 "13pm" = Except.ok 1748782800000
    ∧ ∀ (env : JsDateEnv) (input : String),
        isoShapeTest input.data = false →
        matchDateTimePat (stripKeyword (trimL input.data)).2 = none →
        matchTimeOnlyPat (stripKeyword (trimL input.data)).2 = none →
        env.dateFromString input = none →
        parseDateTime env input = Except.error ("Unable to parse date/time: " ++ input) := by
  constructor
  · decide
  · intro env input h1 h2 h3 h4
    simp [parseDateTime, h1, h2, h3, h4]

/-- Witness for C3: a concrete garbage string matches no shape, the
fallback rejects it, and the raised error names it verbatim. -/
theorem parseDateTime_unparseable_fallback_witness :
    parseDateTime env0 "next full moon" =
      Except.error ("Unable to parse date/time: " ++ "next full moon") :=
  parseDateTime_unparseable_fallback.2 env0 "next full moon"
    (by decide) (by decide) (by decide) rfl

/-- C4: the hour adjustment the parser applies to a matched time-only
input is exactly the specification's 12-hour conversion rule; every
input whose effective remainder matches the time-only shape is
interpreted against the base local day — today, shifted one day when
the keyword stripping consumed a leading tomorrow — with the adjusted
hour and the minutes added; and concretely, with today being
2025-06-01 in a UTC-local environment, tomorrow 2pm parses to 14:00
on 2025-06-02 and 14:00 parses to 14:00 today with no adjustment. -/
theorem parseDateTime_time_only :
    (∀ h mer, jsAdjustHours h mer = specAdjustHours h mer)
    ∧ (∀ (env : JsDateEnv) (input : String) (h m : Nat) (mer : Option Bool),
        isoShapeTest input.data = false →
        matchDateTimePat (stripKeyword (trimL input.data)).2 = none →
        matchTimeOnlyPat (stripKeyword (trimL input.data)).2 = some (h, m, mer) →
        parseDateTime env input =
          Except.ok (localDayStart (env.nowMs + env.tzOffsetMs +
              (if (stripKeyword (trimL input.data)).1 then 86400000 else 0))
            + (specAdjustHours h mer : Int) * 3600000 + (m : Int) * 60000 - env.tzOffsetMs))
    ∧ parseDateTime env0 "tomorrow 2pm" = Except.ok 1748872800000
    ∧ parseDateTime env0 "14:00" = Except.ok 1748786400000 := by
  refine ⟨adjustHours_spec, ?_, by decide, by decide⟩
  intro env input h m mer h1 h2 h3
  simp [parseDateTime, h1, h2, h3, adjustHours_spec]

/-- Witness for C4: the general time-only rule applied to the
concrete input tomorrow 3:30pm yields 15:30 local time on the next
day. -/
theorem parseDateTime_time_only_witness :
    parseDateTime env0 "tomorrow 3:30pm" = Except.ok 1748878200000 := by
  have h := parseDateTime_time_only.2.1 env0 "tomorrow 3:30pm" 3 30 (some true)
    (by decide) (by decide) (by decide)
  exact h.trans (by decide)

/-- C10 counterexample: with the end option present but equal to the
empty string, the submitted event gets the start-plus-one-hour
default end (the falsy empty option takes the default branch), even
though parsing the empty string — what the claim prescribes for every
present end option — fails. -/
theorem createEvent_empty_end_counterexample :
    createEventBody env0 eventEmptyEnd =
      Except.ok { summary := "mtg", description := none, location := none,
                  startMs := 1748786400000, endMs := 1748790000000, attendees := none }
    ∧ parseDateTime env0 "" = Except.error ("Unable to parse date/time: " ++ "") := by
  decide

/-- C10 (amended): when the end option is absent or empty (falsy),
the submitted event's end instant is the parsed start instant plus
exactly one hour (3600000 milliseconds); when the end option is
present and non-empty, the end instant is the parse of that option. -/
theorem createEvent_end_default (env : JsDateEnv) (o : EventInput) (s : Int)
    (hs : parseDateTime env o.start = Except.ok s) :
    (jsTruthyStr o.endOpt = false →
       ∃ b, createEventBody env o = Except.ok b ∧ b.startMs = s ∧ b.endMs = s + 3600000)
    ∧ (∀ es t, o.endOpt = some es → es ≠ "" → parseDateTime env es = Except.ok t →
       ∃ b, createEventBody env o = Except.ok b ∧ b.startMs = s ∧ b.endMs = t) := by
  constructor
  · intro hf
    refine ⟨{ summary := o.summary, description := o.description, location := o.location,
              startMs := s, endMs := s + 3600000,
              attendees :=
                match o.attendees with
                | some l => if 0 < l.length then some l else none
                | none => none }, ?_, rfl, rfl⟩
    simp [createEventBody, hs, hf]
  · intro es t he hne hp
    have ht : jsTruthyStr (some es) = true := by simp [jsTruthyStr, hne]
    refine ⟨{ summary := o.summary, description := o.description, location := o.location,
              startMs := s, endMs := t,
              attendees :=
                match o.attendees with
                | some l => if 0 < l.length then some l else none
                | none => none }, ?_, rfl, rfl⟩
    simp [createEventBody, hs, ht, he, hp]

/-- Witness for C10 at concrete events: an absent end defaults to one
hour after the 14:00 start, and a present non-empty end is parsed. -/
theorem createEvent_end_default_witness :
    (∃ b, createEventBody env0 eventNoEnd = Except.ok b
       ∧ b.startMs = 1748786400000 ∧ b.endMs = 1748786400000 + 3600000)
    ∧ (∃ b, createEventBody env0 eventWithEnd = Except.ok b
       ∧ b.startMs = 1748786400000 ∧ b.endMs = 1748872800000) :=
  ⟨(createEvent_end_default env0 eventNoEnd 1748786400000 (by decide)).1 (by decide),
   (createEvent_end_default env0 eventWithEnd 1748786400000 (by decide)).2
     "tomorrow 2pm" 1748872800000 rfl (by decide) (by decide)⟩

end Gwcli
